import Mathlib

/-!
Shallow embedding of the client-side data-synchronization core of the
JJBoard market-data dashboard (services/binanceService.ts).

Numeric values flowing through the service are JS numbers produced by
`parseFloat`; the claims under verification are independent of the numeric
parsing, so every operation is parameterized by an abstract
`parse : String → ℚ` standing for `parseFloat`, and record fields hold ℚ.
JS `Map` objects are modelled as functions `String → Option _` (the claims
do not depend on iteration order), and JS `Set` objects as `String → Bool`.
-/

/-- The normalized application record shape (`TickerData` in types.ts),
restricted to the fields the synchronization core reads or writes.
`changePercent1h` and `changePercent4h` are optional (`undefined` in TS is
`none` here); the other numeric fields are always present. -/
structure TickerData where
  symbol : String
  price : ℚ
  volume : ℚ
  changePercent1h : Option ℚ
  changePercent4h : Option ℚ
  changePercent24h : ℚ
deriving DecidableEq, Repr

/-- The shared record map `tickerMap : Map<string, TickerData>`. -/
def TickerMap := String → Option TickerData

/-- `map.set(k, v)` on the shared record map. -/
def tmSet (m : TickerMap) (k : String) (v : TickerData) : TickerMap :=
  fun s => if s = k then some v else m s

/-- The empty `Map`. -/
def tmEmpty : TickerMap := fun _ => none

/-- JS `String.prototype.endsWith` (suffix test; all strings involved are
ASCII, so code-unit suffix and character suffix coincide). -/
def strEndsWith (s post : String) : Bool :=
  List.isSuffixOf post.data s.data

/-- Does `pat` occur as a contiguous run inside `l`? -/
def listContainsRun (pat : List Char) : List Char → Bool
  | [] => List.isPrefixOf pat []
  | c :: rest => List.isPrefixOf pat (c :: rest) || listContainsRun pat rest

/-- JS `String.prototype.includes` (substring test). -/
def strIncludes (s pat : String) : Bool :=
  listContainsRun pat.data s.data

/-- The fixed priority-ordered list of known quote assets
(`KNOWN_QUOTE_ASSETS` in binanceService.ts): stablecoins, then major
crypto quotes, then fiats. -/
def KNOWN_QUOTE_ASSETS : List String :=
  ["USDT", "FDUSD", "USDC", "TUSD", "BUSD", "USDP", "DAI", "EURI", "AEUR",
   "VAI", "IDRT",
   "BTC", "ETH", "BNB", "SOL", "XRP", "TRX", "DOGE", "DOT",
   "EUR", "TRY", "BRL", "JPY", "ZAR", "IDR", "RUB", "GBP", "AUD", "COP",
   "MXN", "ARS", "NGN", "UAH", "PLN", "RON", "KZT", "VND"]

/-- The for-loop body of `getQuoteAsset`: walk the asset list in order and
return the first asset the symbol ends with. -/
def getQuoteAssetAux (symbol : String) : List String → Option String
  | [] => none
  | a :: rest => if strEndsWith symbol a then some a else getQuoteAssetAux symbol rest

/-- `getQuoteAsset(symbol)`: first element of `KNOWN_QUOTE_ASSETS` that is a
suffix of `symbol`, or `null` (`none`). -/
def getQuoteAsset (symbol : String) : Option String :=
  getQuoteAssetAux symbol KNOWN_QUOTE_ASSETS

/-- One raw update from the Binance WebSocket (`BinanceTickerWS` in
types.ts): symbol, last price, base volume, quote volume, percent change,
all transported as strings. -/
structure BinanceTickerWS where
  s : String
  c : String
  v : String
  q : String
  P : String
deriving DecidableEq, Repr

/-- The three field groups a combined-stream message can belong to. -/
inductive StreamGroup where
  | h24
  | h1
  | h4
deriving DecidableEq, Repr

/-- Stream-name classification in `onmessage`: `is1h`/`is4h` by substring
match, and 24h as the default when neither marker occurs; the branch order
of the source checks the 24h default first, then 1h, then 4h, which is the
same priority as testing 1h before 4h. -/
def classifyStream (streamName : String) : StreamGroup :=
  if strIncludes streamName "1h" then .h1
  else if strIncludes streamName "4h" then .h4
  else .h24

/-- The record created by `onmessage` when the symbol is not yet in the map
(price 0, volume 0, 24h change 0, both window fields absent). -/
def freshStreamRecord (sym : String) : TickerData :=
  { symbol := sym, price := 0, volume := 0, changePercent1h := none,
    changePercent4h := none, changePercent24h := 0 }

/-- The group-specific field writes of `onmessage`: every group overwrites
`price`; the 24h group also writes `volume` and `changePercent24h`; the 1h
group writes `changePercent1h`; the 4h group writes `changePercent4h`. -/
def applyGroupFields (parse : String → ℚ) (g : StreamGroup)
    (existing : TickerData) (it : BinanceTickerWS) : TickerData :=
  match g with
  | .h24 => { existing with
              price := parse it.c
              volume := parse it.q
              changePercent24h := parse it.P }
  | .h1 => { existing with
             price := parse it.c
             changePercent1h := some (parse it.P) }
  | .h4 => { existing with
             price := parse it.c
             changePercent4h := some (parse it.P) }

/-- Processing of one update item inside `onmessage`: look up or create the
record for the item's symbol, apply the group's field writes, store back. -/
def applyStreamItem (parse : String → ℚ) (g : StreamGroup)
    (m : TickerMap) (it : BinanceTickerWS) : TickerMap :=
  let existing := match m it.s with
    | some r => r
    | none => freshStreamRecord it.s
  tmSet m it.s (applyGroupFields parse g existing it)

/-- Processing of a whole combined-stream message body (`rawData.forEach`):
the payload is a list of updates (a single object is wrapped in a
one-element list), all classified into the same group by the stream name. -/
def processStreamItems (parse : String → ℚ) (g : StreamGroup)
    (m : TickerMap) (items : List BinanceTickerWS) : TickerMap :=
  items.foldl (applyStreamItem parse g) m

/-- One entry of the snapshot 24h-ticker listing that the loader reads
(symbol, last price, quote volume, 24h percent change, trade count). -/
structure SnapTickerItem where
  symbol : String
  lastPrice : String
  quoteVolume : String
  priceChangePercent : String
  count : Nat
deriving DecidableEq, Repr

/-- One entry of the exchange-info symbol listing (symbol and status). -/
structure ExchangeSymbolInfo where
  symbol : String
  status : String
deriving DecidableEq, Repr

/-- The pair of successfully parsed bodies one snapshot origin returns. -/
structure SnapshotPayload where
  tickers : List SnapTickerItem
  exchangeSymbols : List ExchangeSymbolInfo
deriving DecidableEq, Repr

/-- The whitelist built by the loader: symbols whose status is TRADING. -/
def tradingWhitelist (p : SnapshotPayload) : List String :=
  (p.exchangeSymbols.filter (fun s => s.status = "TRADING")).map
    (fun s => s.symbol)

/-- The `tickerData.forEach` loop of `fetchInitialSnapshot`: skip symbols
not in the TRADING whitelist and symbols with zero trade count; for each
surviving entry overwrite the map entry with a fresh record whose two
change-window fields are `undefined`. -/
def applySnapshotPayload (parse : String → ℚ) (m : TickerMap)
    (p : SnapshotPayload) : TickerMap :=
  p.tickers.foldl (fun acc it =>
    if (tradingWhitelist p).contains it.symbol ∧ it.count ≠ 0 then
      tmSet acc it.symbol
        { symbol := it.symbol, price := parse it.lastPrice,
          volume := parse it.quoteVolume, changePercent1h := none,
          changePercent4h := none,
          changePercent24h := parse it.priceChangePercent }
    else acc) m

/-- `fetchInitialSnapshot`: try the origins in order; a `none` outcome is
any failed origin (non-2xx on either call, or a malformed body); the first
successful origin's payload is merged and one notification fires; if every
origin fails, the map is left as-is and one notification still fires. The
second component is the list of map copies handed to data subscribers, in
order. -/
def fetchInitialSnapshot (parse : String → ℚ) (m : TickerMap) :
    List (Option SnapshotPayload) → TickerMap × List TickerMap
  | [] => (m, [m])
  | none :: rest => fetchInitialSnapshot parse m rest
  | some p :: _ =>
    let m1 := applySnapshotPayload parse m p
    (m1, [m1])

/-- JS `Set<string>` membership function. -/
def PendingSet := String → Bool

/-- `set.add(s)`. -/
def setAdd (p : PendingSet) (s : String) : PendingSet :=
  fun x => if x = s then true else p x

/-- `set.delete(s)`. -/
def setDelete (p : PendingSet) (s : String) : PendingSet :=
  fun x => if x = s then false else p x

/-- `fetchDetailedStats(symbol)` with the two windowed-fetch outcomes given
as arguments (`none` is a failed request, `some pcp` a body whose
`priceChangePercent` field is `pcp`): no-op when a fetch for the symbol is
already pending; otherwise mark pending, and if the symbol is in the map,
write each parsed percentage only into a currently-`undefined` field,
re-store and notify once if at least one field was written; the pending
marker is removed in the final step in every path past the guard. Returns
(map, pending set, number of notifications fired). -/
def fetchDetailedStats (parse : String → ℚ) (m : TickerMap)
    (pending : PendingSet) (symbol : String)
    (res1h res4h : Option String) : TickerMap × PendingSet × Nat :=
  if pending symbol then (m, pending, 0)
  else
    let pending1 := setAdd pending symbol
    match m symbol with
    | none => (m, setDelete pending1 symbol, 0)
    | some item =>
      let step1 : TickerData × Bool :=
        match res1h, item.changePercent1h with
        | some r, none => ({ item with changePercent1h := some (parse r) }, true)
        | _, _ => (item, false)
      let step2 : TickerData × Bool :=
        match res4h, step1.1.changePercent4h with
        | some r, none => ({ step1.1 with changePercent4h := some (parse r) }, true)
        | _, _ => (step1.1, false)
      if step1.2 || step2.2 then
        (tmSet m symbol step2.1, setDelete pending1 symbol, 1)
      else (m, setDelete pending1 symbol, 0)

/-- A map-mutating merge operation other than a snapshot load: one stream
update item, or one completed backfill fetch (with the pending set in force
when it completes). -/
inductive MergeOp where
  | stream (g : StreamGroup) (it : BinanceTickerWS)
  | backfill (pending : PendingSet) (symbol : String)
      (res1h res4h : Option String)

/-- The effect of one `MergeOp` on the shared record map. -/
def applyMergeOp (parse : String → ℚ) (m : TickerMap) : MergeOp → TickerMap
  | .stream g it => applyStreamItem parse g m it
  | .backfill pending s r1 r4 => (fetchDetailedStats parse m pending s r1 r4).1

/-- The fixed ordered WebSocket endpoint list (`BASE_WS_URLS`). -/
def BASE_WS_URLS : List String :=
  ["wss://data-stream.binance.vision/stream?streams=!ticker@arr/!ticker_1h@arr/!ticker_4h@arr",
   "wss://stream.binance.com:443/stream?streams=!ticker@arr/!ticker_1h@arr/!ticker_4h@arr",
   "wss://stream.binance.com:9443/stream?streams=!ticker@arr/!ticker_1h@arr/!ticker_4h@arr",
   "wss://data-stream.binance.com/stream?streams=!ticker@arr/!ticker_1h@arr/!ticker_4h@arr"]

/-- `maxReconnectDelay = 10000` milliseconds. -/
def maxReconnectDelay : ℚ := 10000

/-- The reconnect state the backoff logic reads and writes. -/
structure ConnState where
  endpointIndex : Nat
  reconnectAttempt : Nat
deriving DecidableEq, Repr

/-- The delay computed by `scheduleReconnect` for attempt count `n`:
`Math.min(1000 * Math.pow(1.5, n), maxReconnectDelay)`. The double
computation is exact for every `n` at which the cap has not engaged, so ℚ
reproduces it. -/
def reconnectDelay (n : Nat) : ℚ :=
  min (1000 * (3 / 2 : ℚ) ^ n) maxReconnectDelay

/-- `scheduleReconnect`: advance the endpoint index circularly, compute the
delay from the current attempt count, then increment the attempt count.
Returns the new state and the armed delay in milliseconds. -/
def scheduleReconnect (st : ConnState) : ConnState × ℚ :=
  (⟨(st.endpointIndex + 1) % BASE_WS_URLS.length, st.reconnectAttempt + 1⟩,
   reconnectDelay st.reconnectAttempt)

/-- The `onopen` handler's effect on the reconnect state: the attempt
counter is reset to zero (the endpoint index is untouched). -/
def onOpenConn (st : ConnState) : ConnState :=
  ⟨st.endpointIndex, 0⟩

/-- The two events that touch the reconnect state. -/
inductive ConnEvent where
  | wsOpen
  | wsReconnect
deriving DecidableEq, Repr

/-- One step of the reconnect-state machine. -/
def connStep (e : ConnEvent) (st : ConnState) : ConnState :=
  match e with
  | .wsOpen => onOpenConn st
  | .wsReconnect => (scheduleReconnect st).1

/-- `WebSocket.readyState` values. -/
inductive WSReadyState where
  | connectingWS
  | openWS
  | closingWS
  | closedWS
deriving DecidableEq, Repr

/-- The part of the service state that `connect()` touches: the live socket
handle (with its ready state) and the shared record map. -/
structure SyncState where
  ws : Option WSReadyState
  tickerMap : TickerMap

/-- The guard of `connectWebSocket`: a live handle in OPEN or CONNECTING
state. -/
def wsBusy (st : SyncState) : Bool :=
  match st.ws with
  | some .openWS => true
  | some .connectingWS => true
  | _ => false

/-- `connectWebSocket`: if the guard holds, return immediately; otherwise
open a new socket on the current endpoint (the handle becomes CONNECTING).
The Boolean reports whether a new connection attempt was started. -/
def connectWebSocket (st : SyncState) : SyncState × Bool :=
  if wsBusy st then (st, false)
  else ({ st with ws := some .connectingWS }, true)

/-- `connect()`: unconditionally start the snapshot fetch, then call
`connectWebSocket`. The snapshot outcome is the origin-result list; the
returned triple is (new state, maps delivered to data subscribers by the
snapshot path, whether a new socket attempt was started). -/
def connect (parse : String → ℚ) (st : SyncState)
    (snapshotResults : List (Option SnapshotPayload)) :
    SyncState × List TickerMap × Bool :=
  let snap := fetchInitialSnapshot parse st.tickerMap snapshotResults
  let afterWS := connectWebSocket { st with tickerMap := snap.1 }
  (afterWS.1, snap.2, afterWS.2)

/-- Callback registration (`subscribers.push(callback)`): callbacks are
compared by JS reference identity, modelled by a numeric identity. The same
mechanism backs both the data registry and the status registry. -/
def subscribeReg (subs : List Nat) (cb : Nat) : List Nat :=
  subs ++ [cb]

/-- The unsubscribe closure returned by `subscribe`/`subscribeStatus`:
`subscribers = subscribers.filter((c) => c !== callback)`. -/
def unsubscribeReg (subs : List Nat) (cb : Nat) : List Nat :=
  subs.filter (fun c => c ≠ cb)

/-- Object-identity model of the shared map, used to settle what a
subscriber observes through a previously delivered `new Map(tickerMap)`
copy: `heap` maps object references to record contents, `refMap` maps
symbols to the reference currently bound in the live map, and `nextRef` is
the next fresh reference. A delivered copy shares references with the live
map but has its own symbol-to-reference binding table. -/
structure RefStore where
  heap : Nat → Option TickerData
  refMap : String → Option Nat
  nextRef : Nat

/-- What a subscriber observes for `s` through a delivered binding table
`snap`, given the current contents of the object heap. -/
def readThrough (snap : String → Option Nat) (heap : Nat → Option TickerData)
    (s : String) : Option TickerData :=
  (snap s).bind heap

/-- `notify` / the immediate callback of `subscribe`: the subscriber
receives a fresh copy of the binding table (`new Map(this.tickerMap)`),
sharing the record objects themselves. -/
def notifySnap (st : RefStore) : String → Option Nat :=
  st.refMap

/-- `onmessage` processing of one update item in the object-identity model:
for a symbol already in the map, the existing record OBJECT is mutated in
place (`existing.price = ...` and then `set(symbol, existing)` rebinds the
same reference); for an absent symbol, a fresh object is allocated and
bound. -/
def applyStreamItemRef (parse : String → ℚ) (g : StreamGroup)
    (st : RefStore) (it : BinanceTickerWS) : RefStore :=
  match st.refMap it.s with
  | some r =>
    match st.heap r with
    | some rec0 =>
      { st with
        heap := fun x => if x = r then some (applyGroupFields parse g rec0 it)
                         else st.heap x }
    | none => st
  | none =>
    { heap := fun x =>
        if x = st.nextRef then
          some (applyGroupFields parse g (freshStreamRecord it.s) it)
        else st.heap x
      refMap := fun s => if s = it.s then some st.nextRef else st.refMap s
      nextRef := st.nextRef + 1 }

/-- The map-writing part of `fetchDetailedStats` in the object-identity
model: the record object fetched from the map is mutated in place
(`item.changePercent1h = ...`; the later `set(symbol, item)` rebinds the
same reference), each window only when currently `undefined`. -/
def backfillRef (parse : String → ℚ) (st : RefStore) (symbol : String)
    (res1h res4h : Option String) : RefStore :=
  match st.refMap symbol with
  | none => st
  | some r =>
    match st.heap r with
    | none => st
    | some item =>
      let item1 := match res1h, item.changePercent1h with
        | some pcp, none => { item with changePercent1h := some (parse pcp) }
        | _, _ => item
      let item2 := match res4h, item1.changePercent4h with
        | some pcp, none => { item1 with changePercent4h := some (parse pcp) }
        | _, _ => item1
      { st with heap := fun x => if x = r then some item2 else st.heap x }

/-- One `tickerData.forEach` step of the snapshot loader in the
object-identity model: a surviving entry binds its symbol to a NEWLY
allocated record object (an object literal per entry); previously bound
objects are not mutated. -/
def snapStepRef (parse : String → ℚ) (wl : List String) (acc : RefStore)
    (it : SnapTickerItem) : RefStore :=
  if wl.contains it.symbol ∧ it.count ≠ 0 then
    { heap := fun x =>
        if x = acc.nextRef then
          some { symbol := it.symbol, price := parse it.lastPrice,
                 volume := parse it.quoteVolume, changePercent1h := none,
                 changePercent4h := none,
                 changePercent24h := parse it.priceChangePercent }
        else acc.heap x
      refMap := fun s => if s = it.symbol then some acc.nextRef
                         else acc.refMap s
      nextRef := acc.nextRef + 1 }
  else acc

/-- The snapshot loader's map population in the object-identity model. -/
def applySnapshotPayloadRef (parse : String → ℚ) (st : RefStore)
    (p : SnapshotPayload) : RefStore :=
  p.tickers.foldl (snapStepRef parse (tradingWhitelist p)) st

/-- A concrete stand-in for `parseFloat`, tabulated on the handful of
numeric strings the concrete examples below use. -/
def exParse (s : String) : ℚ :=
  if s = "101" then 101
  else if s = "2000" then 2000
  else if s = "3" then 3
  else if s = "200" then 200
  else if s = "3000" then 3000
  else if s = "4" then 4
  else if s = "7" then 7
  else if s = "11" then 11
  else 0

/-- A concrete record whose 1h field a stream message has already set. -/
def exRecordWith1h : TickerData :=
  { symbol := "BTCUSDT", price := 100, volume := 1000,
    changePercent1h := some 9, changePercent4h := none,
    changePercent24h := 2 }

/-- A concrete map holding only `exRecordWith1h`. -/
def exMap : TickerMap := tmSet tmEmpty "BTCUSDT" exRecordWith1h

/-- A concrete successful snapshot payload covering `BTCUSDT`. -/
def exPayload : SnapshotPayload :=
  { tickers := [{ symbol := "BTCUSDT", lastPrice := "101",
                  quoteVolume := "2000", priceChangePercent := "3",
                  count := 5 }],
    exchangeSymbols := [{ symbol := "BTCUSDT", status := "TRADING" }] }

/-- A concrete 24h-group stream update for `BTCUSDT`. -/
def exItem24h : BinanceTickerWS :=
  { s := "BTCUSDT", c := "200", v := "7", q := "3000", P := "4" }

/-- A concrete object store: one record object (reference 0) bound to
`BTCUSDT` in the live map. -/
def exRefStore : RefStore :=
  { heap := fun x => if x = 0 then some exRecordWith1h else none,
    refMap := fun s => if s = "BTCUSDT" then some 0 else none,
    nextRef := 1 }

/-- A sequence of stream/backfill merge operations applied in order. -/
def applyMergeOps (parse : String → ℚ) (m : TickerMap)
    (ops : List MergeOp) : TickerMap :=
  ops.foldl (applyMergeOp parse) m

/-- A concrete 1h-group stream update for `BTCUSDT` (percent change 4). -/
def exItem1h : BinanceTickerWS :=
  { s := "BTCUSDT", c := "101", v := "7", q := "2000", P := "4" }

theorem getQuoteAssetAux_eq_find (s : String) (l : List String) :
    getQuoteAssetAux s l = l.find? (fun a => strEndsWith s a) := by
  induction l with
  | nil => rfl
  | cons a rest ih =>
    cases h : strEndsWith s a <;>
      simp [getQuoteAssetAux, List.find?_cons, h, ih]

/-- C9: `getQuoteAsset` returns the first element of the fixed
priority-ordered `KNOWN_QUOTE_ASSETS` list that is a suffix of the symbol
(that is, it agrees with `List.find?` of the suffix test over the list, in
order), and returns `none` exactly when no element is a suffix; concretely
it maps "ETHBTC" to "BTC" (matched before any fiat code) and "UNKNOWNXYZ"
to `none`. -/
theorem getQuoteAsset_first_matching_suffix (s : String) :
    getQuoteAsset s = KNOWN_QUOTE_ASSETS.find? (fun a => strEndsWith s a) ∧
    (getQuoteAsset s = none ↔
      ∀ a ∈ KNOWN_QUOTE_ASSETS, strEndsWith s a = false) ∧
    getQuoteAsset "ETHBTC" = some "BTC" ∧
    getQuoteAsset "UNKNOWNXYZ" = none := by
  refine ⟨getQuoteAssetAux_eq_find s _, ?_, by decide, by decide⟩
  rw [getQuoteAsset, getQuoteAssetAux_eq_find, List.find?_eq_none]
  simp

/-- C7: when every snapshot origin fails, `fetchInitialSnapshot` leaves the
shared record map exactly as it was before the attempt and still fires
exactly one notification, handing data subscribers the unchanged (possibly
empty) map. -/
theorem fetchInitialSnapshot_total_failure (parse : String → ℚ)
    (m : TickerMap) (results : List (Option SnapshotPayload))
    (h : ∀ r ∈ results, r = none) :
    fetchInitialSnapshot parse m results = (m, [m]) := by
  induction results with
  | nil => rfl
  | cons r rest ih =>
    have hr : r = none := h r (by simp)
    subst hr
    exact ih (fun x hx => h x (by simp [hx]))

/-- Witness for C7 at a concrete input: three failed origins. -/
theorem fetchInitialSnapshot_total_failure_w :
    fetchInitialSnapshot exParse exMap [none, none, none] = (exMap, [exMap]) :=
  fetchInitialSnapshot_total_failure exParse exMap [none, none, none]
    (by simp)

/-- C10: a `fetchDetailedStats` call for a symbol absent from the map and
not in flight leaves the map entirely unchanged, fires no notification, and
still ends with the symbol removed from the in-flight set (its final
`delete` step), so a later call for the same symbol is not blocked; the
in-flight set as a whole is exactly as before. -/
theorem fetchDetailedStats_absent_symbol (parse : String → ℚ) (m : TickerMap)
    (pending : PendingSet) (symbol : String) (res1h res4h : Option String)
    (hp : pending symbol = false) (hm : m symbol = none) :
    (fetchDetailedStats parse m pending symbol res1h res4h).1 = m ∧
    (fetchDetailedStats parse m pending symbol res1h res4h).2.2 = 0 ∧
    (fetchDetailedStats parse m pending symbol res1h res4h).2.1 symbol
      = false ∧
    ∀ x, (fetchDetailedStats parse m pending symbol res1h res4h).2.1 x
      = pending x := by
  refine ⟨?_, ?_, ?_, ?_⟩ <;>
    simp only [fetchDetailedStats, hp, hm, Bool.false_eq_true, if_false]
  · simp [setDelete]
  · intro x
    by_cases hx : x = symbol <;> simp [setDelete, setAdd, hx, hp]

/-- Witness for C10 at a concrete input: `ETHUSDT` is not in `exMap` and
not in flight. -/
theorem fetchDetailedStats_absent_symbol_w :
    (fetchDetailedStats exParse exMap (fun _ => false) "ETHUSDT"
        (some "11") none).1 = exMap ∧
    (fetchDetailedStats exParse exMap (fun _ => false) "ETHUSDT"
        (some "11") none).2.2 = 0 ∧
    (fetchDetailedStats exParse exMap (fun _ => false) "ETHUSDT"
        (some "11") none).2.1 "ETHUSDT" = false ∧
    ∀ x, (fetchDetailedStats exParse exMap (fun _ => false) "ETHUSDT"
        (some "11") none).2.1 x = false :=
  fetchDetailedStats_absent_symbol exParse exMap (fun _ => false) "ETHUSDT"
    (some "11") none (by decide) (by decide)

/-- C2: a backfill fetch writes the parsed 1-hour (resp. 4-hour) percentage
into the record only when the record's corresponding field is currently
`undefined`; a field already set (e.g. by a stream message) is retained
with its old value and the backfill result for it is discarded. -/
theorem fetchDetailedStats_never_clobbers (parse : String → ℚ)
    (m : TickerMap) (pending : PendingSet) (symbol : String)
    (res1h res4h : Option String) (rec : TickerData) (v : ℚ) (p : String)
    (hm : m symbol = some rec) :
    (rec.changePercent1h = some v →
      ((fetchDetailedStats parse m pending symbol res1h res4h).1 symbol).bind
        (fun r => r.changePercent1h) = some v) ∧
    (rec.changePercent4h = some v →
      ((fetchDetailedStats parse m pending symbol res1h res4h).1 symbol).bind
        (fun r => r.changePercent4h) = some v) ∧
    (pending symbol = false → rec.changePercent1h = none → res1h = some p →
      ((fetchDetailedStats parse m pending symbol res1h res4h).1 symbol).bind
        (fun r => r.changePercent1h) = some (parse p)) ∧
    (pending symbol = false → rec.changePercent4h = none → res4h = some p →
      ((fetchDetailedStats parse m pending symbol res1h res4h).1 symbol).bind
        (fun r => r.changePercent4h) = some (parse p)) := by
  cases hp : pending symbol <;>
    rcases res1h with _ | p1 <;> rcases res4h with _ | p4 <;>
    rcases hr1 : rec.changePercent1h with _ | v1 <;>
    rcases hr4 : rec.changePercent4h with _ | v4 <;>
    refine ⟨?_, ?_, ?_, ?_⟩ <;>
    simp_all [fetchDetailedStats, tmSet, setAdd, setDelete]

/-- Witness for C2: the spec scenario — backfill returns 1h percent "11"
while a stream message already set 1h change 9; the stream value 9 is
retained, and the still-undefined 4h field is filled. -/
theorem fetchDetailedStats_never_clobbers_w :
    ((fetchDetailedStats exParse exMap (fun _ => false) "BTCUSDT"
        (some "11") (some "4")).1 "BTCUSDT").bind
      (fun r => r.changePercent1h) = some 9 ∧
    ((fetchDetailedStats exParse exMap (fun _ => false) "BTCUSDT"
        (some "11") (some "4")).1 "BTCUSDT").bind
      (fun r => r.changePercent4h) = some (exParse "4") :=
  ⟨(fetchDetailedStats_never_clobbers exParse exMap (fun _ => false)
      "BTCUSDT" (some "11") (some "4") exRecordWith1h 9 "4" (by decide)).1
      (by decide),
   (fetchDetailedStats_never_clobbers exParse exMap (fun _ => false)
      "BTCUSDT" (some "11") (some "4") exRecordWith1h 9 "4"
      (by decide)).2.2.2 (by decide) (by decide) (by decide)⟩

theorem processStreamItems_window_frame (parse : String → ℚ)
    (g : StreamGroup) (hg : g = .h1 ∨ g = .h4)
    (items : List BinanceTickerWS) :
    ∀ (m : TickerMap) (S : String) (rec : TickerData), m S = some rec →
      ∃ rec', processStreamItems parse g m items S = some rec' ∧
        rec'.volume = rec.volume ∧
        rec'.changePercent24h = rec.changePercent24h := by
  induction items with
  | nil => exact fun m S rec hm => ⟨rec, hm, rfl, rfl⟩
  | cons it rest ih =>
    intro m S rec hm
    have hstep : ∃ rec'', (applyStreamItem parse g m it) S = some rec'' ∧
        rec''.volume = rec.volume ∧
        rec''.changePercent24h = rec.changePercent24h := by
      by_cases hs : S = it.s
      · subst hs
        refine ⟨applyGroupFields parse g rec it, ?_, ?_, ?_⟩
        · simp [applyStreamItem, tmSet, hm]
        · rcases hg with hg | hg <;> subst hg <;> simp [applyGroupFields]
        · rcases hg with hg | hg <;> subst hg <;> simp [applyGroupFields]
      · exact ⟨rec, by simp [applyStreamItem, tmSet, hs, hm], rfl, rfl⟩
    rcases hstep with ⟨rec'', h1, h2, h3⟩
    rcases ih _ S rec'' h1 with ⟨rec', hh1, hh2, hh3⟩
    refine ⟨rec', ?_, by rw [hh2, h2], by rw [hh3, h3]⟩
    simpa [processStreamItems] using hh1

/-- C3: a 1-hour-group (resp. 4-hour-group) stream update for a symbol
already in the map rewrites only `price` and the corresponding
change-window field, leaving `volume`, `changePercent24h` (and the other
window field) untouched — also across a whole message's item list; a
24-hour-group update sets `price`, `volume` and `changePercent24h` to the
message's values and leaves both change-window fields untouched. -/
theorem streamMessage_group_frame (parse : String → ℚ) (m : TickerMap)
    (S : String) (rec : TickerData) (it : BinanceTickerWS)
    (hm : m S = some rec) (hs : it.s = S) :
    (applyStreamItem parse .h1 m it) S =
      some { rec with price := parse it.c, changePercent1h := some (parse it.P) } ∧
    (applyStreamItem parse .h4 m it) S =
      some { rec with price := parse it.c, changePercent4h := some (parse it.P) } ∧
    (applyStreamItem parse .h24 m it) S =
      some { rec with price := parse it.c, volume := parse it.q, changePercent24h := parse it.P } ∧
    (∀ items : List BinanceTickerWS, ∀ g : StreamGroup,
      g = .h1 ∨ g = .h4 →
      ∃ rec', processStreamItems parse g m items S = some rec' ∧
        rec'.volume = rec.volume ∧
        rec'.changePercent24h = rec.changePercent24h) := by
  subst hs
  refine ⟨?_, ?_, ?_, ?_⟩
  · simp [applyStreamItem, tmSet, hm, applyGroupFields]
  · simp [applyStreamItem, tmSet, hm, applyGroupFields]
  · simp [applyStreamItem, tmSet, hm, applyGroupFields]
  · exact fun items g hg =>
      processStreamItems_window_frame parse g hg items m it.s rec hm

/-- Witness for C3: the spec scenario — a 1h-group update for `BTCUSDT`
(price "101", percent "4") on a record set by the snapshot keeps volume and
24h change and writes price and the 1h change. -/
theorem streamMessage_group_frame_w :
    (applyStreamItem exParse .h1 exMap exItem1h) "BTCUSDT" =
      some { exRecordWith1h with
             price := exParse "101"
             changePercent1h := some (exParse "4") } :=
  (streamMessage_group_frame exParse exMap "BTCUSDT" exRecordWith1h exItem1h
    (by decide) (by decide)).1

/-- Counterexample to C1 as stated: a 1h stream message defines
`changePercent1h` for `BTCUSDT` (value `parseFloat "4"`), and a snapshot
load completing afterwards (first origin succeeding with a payload that
covers `BTCUSDT`, TRADING, nonzero count) overwrites the record, setting
the field back to `undefined`. -/
theorem snapshotLoad_resets_defined_window :
    ((applyStreamItem exParse .h1 tmEmpty exItem1h) "BTCUSDT").bind
      (fun r => r.changePercent1h) = some (exParse "4") ∧
    ((fetchInitialSnapshot exParse
        (applyStreamItem exParse .h1 tmEmpty exItem1h)
        [some exPayload]).1 "BTCUSDT").bind
      (fun r => r.changePercent1h) = none := by decide

theorem fetchDetailedStats_other_symbol (parse : String → ℚ)
    (m : TickerMap) (pending : PendingSet) (sym : String)
    (r1 r4 : Option String) (S : String) (hS : S ≠ sym) :
    (fetchDetailedStats parse m pending sym r1 r4).1 S = m S := by
  simp only [fetchDetailedStats]
  split
  · rfl
  · split
    · rfl
    · split <;> simp [tmSet, hS]

theorem fetchDetailedStats_retains_window (parse : String → ℚ)
    (m : TickerMap) (pending : PendingSet) (sym S : String)
    (r1 r4 : Option String) (v : ℚ) :
    ((m S).bind (fun r => r.changePercent1h) = some v →
      ((fetchDetailedStats parse m pending sym r1 r4).1 S).bind
        (fun r => r.changePercent1h) = some v) ∧
    ((m S).bind (fun r => r.changePercent4h) = some v →
      ((fetchDetailedStats parse m pending sym r1 r4).1 S).bind
        (fun r => r.changePercent4h) = some v) := by
  by_cases hS : S = sym
  · subst hS
    rcases hm : m S with _ | rec
    · simp [hm]
    · cases hp : pending S <;>
        rcases r1 with _ | p1 <;> rcases r4 with _ | p4 <;>
        rcases hr1 : rec.changePercent1h with _ | v1 <;>
        rcases hr4 : rec.changePercent4h with _ | v4 <;>
        constructor <;> intro h <;>
        simp_all [fetchDetailedStats, tmSet, setAdd, setDelete]
  · rw [fetchDetailedStats_other_symbol parse m pending sym r1 r4 S hS]
    exact ⟨id, id⟩

theorem applyMergeOp_keeps_defined_windows (parse : String → ℚ)
    (m : TickerMap) (S : String) (op : MergeOp) :
    (((m S).bind (fun r => r.changePercent1h)).isSome = true →
      (((applyMergeOp parse m op) S).bind
        (fun r => r.changePercent1h)).isSome = true) ∧
    (((m S).bind (fun r => r.changePercent4h)).isSome = true →
      (((applyMergeOp parse m op) S).bind
        (fun r => r.changePercent4h)).isSome = true) := by
  rcases op with ⟨g, it⟩ | ⟨pending, sym, r1, r4⟩
  · by_cases hs : S = it.s
    · subst hs
      rcases hm : m it.s with _ | rec
      · simp [hm]
      · cases g <;>
          constructor <;> intro h <;>
          simp_all [applyMergeOp, applyStreamItem, tmSet, applyGroupFields]
    · have hfr : (applyMergeOp parse m (.stream g it)) S = m S := by
        simp [applyMergeOp, applyStreamItem, tmSet, hs]
      rw [hfr]; exact ⟨id, id⟩
  · constructor <;> intro h <;>
      rcases Option.isSome_iff_exists.mp h with ⟨v, hv⟩
    · exact Option.isSome_iff_exists.mpr
        ⟨v, (fetchDetailedStats_retains_window parse m pending sym S
              r1 r4 v).1 hv⟩
    · exact Option.isSome_iff_exists.mpr
        ⟨v, (fetchDetailedStats_retains_window parse m pending sym S
              r1 r4 v).2 hv⟩

/-- C1 amended: over any sequence of stream-message merges and backfill
writes, a defined `changePercent1h`/`changePercent4h` never reverts to
`undefined`; the exception the counterexample forces is the snapshot load,
which overwrites the whole record (both window fields reset to
`undefined`) for every symbol in its surviving payload. -/
theorem mergeOps_never_unset_windows (parse : String → ℚ)
    (ops : List MergeOp) (m : TickerMap) (S : String) :
    (((m S).bind (fun r => r.changePercent1h)).isSome = true →
      (((applyMergeOps parse m ops) S).bind
        (fun r => r.changePercent1h)).isSome = true) ∧
    (((m S).bind (fun r => r.changePercent4h)).isSome = true →
      (((applyMergeOps parse m ops) S).bind
        (fun r => r.changePercent4h)).isSome = true) := by
  induction ops generalizing m with
  | nil => exact ⟨id, id⟩
  | cons op rest ih =>
    have hop := applyMergeOp_keeps_defined_windows parse m S op
    have hstep : applyMergeOps parse m (op :: rest) =
        applyMergeOps parse (applyMergeOp parse m op) rest := rfl
    rw [hstep]
    exact ⟨fun h => (ih _).1 (hop.1 h), fun h => (ih _).2 (hop.2 h)⟩

/-- Witness for the amended C1: a 24h stream update followed by a backfill
leaves `BTCUSDT`'s defined 1h change defined. -/
theorem mergeOps_never_unset_windows_w :
    (((applyMergeOps exParse exMap
        [MergeOp.stream .h24 exItem24h,
         MergeOp.backfill (fun _ => false) "BTCUSDT" (some "11")
           (some "4")]) "BTCUSDT").bind
      (fun r => r.changePercent1h)).isSome = true :=
  (mergeOps_never_unset_windows exParse
    [MergeOp.stream .h24 exItem24h,
     MergeOp.backfill (fun _ => false) "BTCUSDT" (some "11") (some "4")]
    exMap "BTCUSDT").1 (by decide)

/-- C4: `scheduleReconnect` advances the endpoint index by exactly one
modulo the endpoint-list length (so consecutive attempts never reuse an
index), the armed delay for attempt count n is
min(1000 * 1.5^n, 10000) ms — 1000, 1500, 2250, 3375, ... and 10000 from
n = 6 on — and over the events touching the counter, the attempt counter is
zero after a step exactly when that step was a successful open. -/
theorem reconnect_backoff_spec (st : ConnState)
    (h : st.endpointIndex < BASE_WS_URLS.length) :
    (scheduleReconnect st).1.endpointIndex =
      (st.endpointIndex + 1) % BASE_WS_URLS.length ∧
    (scheduleReconnect st).1.endpointIndex ≠ st.endpointIndex ∧
    (scheduleReconnect st).2 =
      min (1000 * (3 / 2 : ℚ) ^ st.reconnectAttempt) 10000 ∧
    reconnectDelay 0 = 1000 ∧ reconnectDelay 1 = 1500 ∧
    reconnectDelay 2 = 2250 ∧ reconnectDelay 3 = 3375 ∧
    (∀ n, 6 ≤ n → reconnectDelay n = 10000) ∧
    (∀ (e : ConnEvent) (st' : ConnState),
      (connStep e st').reconnectAttempt = 0 ↔ e = ConnEvent.wsOpen) := by
  have hlen : BASE_WS_URLS.length = 4 := rfl
  refine ⟨rfl, ?_, rfl, ?_, ?_, ?_, ?_, ?_, ?_⟩
  · simp only [scheduleReconnect, hlen]
    rw [hlen] at h
    omega
  · norm_num [reconnectDelay, maxReconnectDelay]
  · norm_num [reconnectDelay, maxReconnectDelay]
  · norm_num [reconnectDelay, maxReconnectDelay]
  · norm_num [reconnectDelay, maxReconnectDelay]
  · intro n hn
    have hpow : ((3 : ℚ) / 2) ^ 6 ≤ ((3 : ℚ) / 2) ^ n :=
      pow_le_pow_right₀ (by norm_num) hn
    have hcap : (10000 : ℚ) ≤ 1000 * ((3 : ℚ) / 2) ^ n := by nlinarith
    simp [reconnectDelay, maxReconnectDelay, min_eq_right hcap]
  · intro e st'
    cases e <;> simp [connStep, onOpenConn, scheduleReconnect]

/-- Witness for C4 at the initial reconnect state (index 0, attempt 0). -/
theorem reconnect_backoff_spec_w :
    (scheduleReconnect ⟨0, 0⟩).1.endpointIndex =
      (0 + 1) % BASE_WS_URLS.length ∧
    (scheduleReconnect ⟨0, 0⟩).1.endpointIndex ≠ 0 :=
  ⟨(reconnect_backoff_spec ⟨0, 0⟩ (by decide)).1,
   (reconnect_backoff_spec ⟨0, 0⟩ (by decide)).2.1⟩

/-- Counterexample to C5 as stated: with the socket already CONNECTING,
`connect()` is not a no-op — the snapshot fetch it unconditionally starts
changes the shared map (here it inserts `BTCUSDT`) and fires a
notification to data subscribers. -/
theorem connect_refetches_when_connecting :
    ((connect exParse { ws := some .connectingWS, tickerMap := tmEmpty }
        [some exPayload]).1.tickerMap "BTCUSDT" ≠ tmEmpty "BTCUSDT") ∧
    (connect exParse { ws := some .connectingWS, tickerMap := tmEmpty }
        [some exPayload]).2.1.length = 1 := by decide

/-- C5 amended: when the connection state is already Connecting or
Connected, the WebSocket step `connectWebSocket` is a no-op and `connect()`
starts no new connection attempt; but `connect()` is not a no-op overall —
it still unconditionally runs the snapshot fetch, whose effect on the map
and whose notifications happen exactly as if called alone. -/
theorem connect_when_busy (parse : String → ℚ) (st : SyncState)
    (results : List (Option SnapshotPayload))
    (h : st.ws = some .connectingWS ∨ st.ws = some .openWS) :
    connectWebSocket st = (st, false) ∧
    (connect parse st results).1.ws = st.ws ∧
    (connect parse st results).1.tickerMap =
      (fetchInitialSnapshot parse st.tickerMap results).1 ∧
    (connect parse st results).2.1 =
      (fetchInitialSnapshot parse st.tickerMap results).2 ∧
    (connect parse st results).2.2 = false := by
  have hbusy : wsBusy st = true := by
    rcases h with h | h <;> simp [wsBusy, h]
  have hbusy2 : wsBusy { st with
      tickerMap := (fetchInitialSnapshot parse st.tickerMap results).1 }
      = true := by
    rcases h with h | h <;> simp [wsBusy, h]
  have hcw : connectWebSocket st = (st, false) := by
    simp [connectWebSocket, hbusy]
  refine ⟨hcw, ?_, ?_, ?_, ?_⟩ <;>
    simp [connect, connectWebSocket, hbusy2]

/-- Witness for the amended C5 with a CONNECTING socket. -/
theorem connect_when_busy_w :
    connectWebSocket { ws := some .connectingWS, tickerMap := tmEmpty } =
      ({ ws := some .connectingWS, tickerMap := tmEmpty }, false) :=
  (connect_when_busy exParse
    { ws := some .connectingWS, tickerMap := tmEmpty } [] (Or.inl rfl)).1

/-- Counterexample to C6 as stated: registering the same callback
(identity 7) twice and invoking one returned unsubscribe function leaves
ZERO registrations of that callback, not one — `filter` removes every
registration with that identity, not exactly one. -/
theorem unsubscribe_removes_all_registrations :
    (subscribeReg (subscribeReg [] 7) 7).count 7 = 2 ∧
    (unsubscribeReg (subscribeReg (subscribeReg [] 7) 7) 7).count 7 = 0 := by
  decide

/-- C6 amended: for both registries, the unsubscribe function removes EVERY
registration whose callback is identical to the one it closed over (so none
remain), leaving the registrations of every other callback untouched. -/
theorem unsubscribeReg_removes_every_copy (subs : List Nat) (cb : Nat) :
    (unsubscribeReg subs cb).count cb = 0 ∧
    (∀ c, c ≠ cb → (unsubscribeReg subs cb).count c = subs.count c) := by
  refine ⟨?_, ?_⟩
  · rw [List.count_eq_zero]
    simp [unsubscribeReg]
  · intro c hc
    induction subs with
    | nil => rfl
    | cons a rest ih =>
      simp only [unsubscribeReg, decide_not] at ih ⊢
      rw [List.filter_cons]
      by_cases ha : a = cb
      · subst ha
        simp [Ne.symm hc, List.count_cons, ih]
      · simp [ha, List.count_cons, ih]

/-- Witness for the amended C6 on a concrete registry `[7, 5]`. -/
theorem unsubscribeReg_removes_every_copy_w :
    (unsubscribeReg [7, 5] 7).count 7 = 0 ∧
    (unsubscribeReg [7, 5] 7).count 5 = [7, 5].count 5 :=
  ⟨(unsubscribeReg_removes_every_copy [7, 5] 7).1,
   (unsubscribeReg_removes_every_copy [7, 5] 7).2 5 (by decide)⟩

/-- Counterexample to C8 as stated: a subscriber holding the map copy
delivered before a 24h stream update observes price 100 through it at
delivery time, but after the update — which mutates the shared record
object in place — the SAME delivered copy shows price 200: the snapshot is
not an immutable point-in-time view. -/
theorem snapshotCopy_mutated_in_place :
    (readThrough (notifySnap exRefStore) exRefStore.heap "BTCUSDT").map
      (fun r => r.price) = some 100 ∧
    (readThrough (notifySnap exRefStore)
        (applyStreamItemRef exParse .h24 exRefStore exItem24h).heap
        "BTCUSDT").map
      (fun r => r.price) = some 200 := by decide

theorem snapRefFold_heap_below (parse : String → ℚ) (wl : List String)
    (items : List SnapTickerItem) :
    ∀ (st : RefStore) (x : Nat), x < st.nextRef →
      (items.foldl (snapStepRef parse wl) st).heap x = st.heap x := by
  induction items with
  | nil => intro st x hx; rfl
  | cons it rest ih =>
    intro st x hx
    have hstep1 : (snapStepRef parse wl st it).heap x = st.heap x := by
      simp only [snapStepRef]
      split
      · simp [Nat.ne_of_lt hx]
      · rfl
    have hnext : st.nextRef ≤ (snapStepRef parse wl st it).nextRef := by
      simp only [snapStepRef]
      split <;> simp
    rw [List.foldl_cons,
      ih (snapStepRef parse wl st it) x (lt_of_lt_of_le hx hnext), hstep1]

/-- C8 amended: a delivered map is only a fresh shallow copy of the
symbol-to-record-object bindings; the record objects are shared by
reference, so a later stream merge or backfill write that mutates an
existing record in place IS observed through the previously delivered
copy, while a snapshot reload — which installs newly allocated objects —
leaves what is observed through the old copy unchanged. -/
theorem snapshot_shares_record_objects (parse : String → ℚ) (st : RefStore)
    (S : String) (r : Nat) (rec : TickerData)
    (hr : st.refMap S = some r) (hh : st.heap r = some rec) :
    (∀ (g : StreamGroup) (it : BinanceTickerWS), it.s = S →
      readThrough (notifySnap st) (applyStreamItemRef parse g st it).heap S
        = some (applyGroupFields parse g rec it)) ∧
    (∀ (r1 r4 : Option String) (pcp : String),
      rec.changePercent1h = none → r1 = some pcp →
      (readThrough (notifySnap st) (backfillRef parse st S r1 r4).heap
          S).bind (fun x => x.changePercent1h) = some (parse pcp)) ∧
    (∀ p : SnapshotPayload, r < st.nextRef →
      readThrough (notifySnap st) (applySnapshotPayloadRef parse st p).heap S
        = some rec) := by
  refine ⟨?_, ?_, ?_⟩
  · intro g it hs
    subst hs
    simp [applyStreamItemRef, readThrough, notifySnap, hr, hh]
  · intro r1 r4 pcp h1 hp
    subst hp
    rcases r4 with _ | p4 <;>
      rcases hr4 : rec.changePercent4h with _ | v4 <;>
      simp [backfillRef, readThrough, notifySnap, hr, hh, h1, hr4]
  · intro p hlt
    have hbelow := snapRefFold_heap_below parse (tradingWhitelist p)
      p.tickers st r hlt
    simp [applySnapshotPayloadRef, readThrough, notifySnap, hr, hbelow, hh]

/-- Witness for the amended C8: the in-place 24h merge on the shared
`BTCUSDT` object is observed through the previously delivered copy. -/
theorem snapshot_shares_record_objects_w :
    readThrough (notifySnap exRefStore)
        (applyStreamItemRef exParse .h24 exRefStore exItem24h).heap "BTCUSDT"
      = some (applyGroupFields exParse .h24 exRecordWith1h exItem24h) :=
  (snapshot_shares_record_objects exParse exRefStore "BTCUSDT" 0
    exRecordWith1h (by decide) (by decide)).1 .h24 exItem24h rfl
